import Mathlib

/-!
# Verification of the Carla-client orchestration core

A shallow embedding of the CARLA lane-keeping client (ADS-Skynet/Carla-client).
The repository's checked-in Python (`src/run.py`, `src/constants.py`) is a thin
shell: argument parsing, configuration resolution, and the `main` control flow.
The orchestration loop itself (shared-memory round trip, throttle policy,
action-event state machine) lives outside the checked-in sources; those parts
are modelled from the specification, as marked on each definition.

Conventions: machine integers are `Nat`/`Int`; Python floats used for throttle
and steering are modelled as `ℚ` (the policy only copies and compares them, so
no floating-point rounding is observable at this level); time is measured in
integer milliseconds.
-/

/-! ## Data model (spec section 3) -/

/-- A camera frame as written to the Shared Frame Channel: a monotonic
`frame_id`, capture timestamp, image geometry and an abstract reference to the
pixel buffer. -/
structure FrameData where
  frame_id : Nat
  capture_timestamp : Nat
  width : Nat
  height : Nat
  payload : Nat
  deriving DecidableEq, Repr

/-- The tick-independent part of a captured frame (everything except the
`frame_id` the orchestrator assigns). -/
structure FrameCapture where
  capture_timestamp : Nat
  width : Nat
  height : Nat
  payload : Nat
  deriving DecidableEq, Repr

/-- A detection result as read from the Shared Detection Channel, keyed by the
`frame_id` of the frame it was computed from; the structured result (lane
markers, boxes, confidence) is abstracted into a `result` code plus the
explicit validity flag. -/
structure DetectionData where
  frame_id : Nat
  produced_timestamp : Nat
  result : Nat
  valid : Bool
  deriving DecidableEq, Repr

/-- The control command applied to the simulated vehicle and mirrored to the
Shared Control Channel. -/
structure ControlCommand where
  throttle : ℚ
  steer : ℚ
  brake : ℚ
  source_frame_id : Nat
  is_fallback : Bool
  deriving DecidableEq, Repr

/-- Warmup bookkeeping: `frames_elapsed` counts ticks driven on the fixed base
throttle; `warmup_limit` is the configured number of warmup frames. -/
structure WarmupState where
  frames_elapsed : Nat
  warmup_limit : Nat
  deriving DecidableEq, Repr

/-- Operator action types, from `src/constants.py` (`ActionTypes`). -/
inductive ActionType where
  | respawn
  | pause
  | resume
  | quit
  deriving DecidableEq, Repr

/-- Orchestrator run state machine (spec section 4.4). -/
inductive Mode where
  | running
  | paused
  | terminating
  deriving DecidableEq, Repr

/-- Modelled from the spec: the process-local state the Tick Orchestrator
carries across ticks (the orchestrator class is not in the checked-in
sources).  `lastFrameId` is the most recently written frame id (0 before the
first write), `lastSafeSteer` the last steering applied from a live detection. -/
structure OrchestratorState where
  mode : Mode
  warmup : WarmupState
  lastSafeSteer : Option ℚ
  lastFrameId : Nat
  deriving DecidableEq, Repr

/-- The subset of `SimulationConfig` (built in `src/run.py` `main`) that the
modelled core loop consumes. -/
structure SimulationConfig where
  carla_host : String
  carla_port : Int
  detector_timeout : Nat
  enable_broadcast : Bool
  base_throttle : ℚ
  warmup_frames : Nat
  enable_sync_mode : Bool
  deriving DecidableEq, Repr

/-! ## Detection round-trip protocol (spec section 4.2)

The detector is an external process; its observable behaviour during one
tick's wait is the content of the Shared Detection Channel as a function of
elapsed milliseconds since the frame was written.  `none` models an empty (or
never-written) channel — a stuck or crashed detector is the constant-`none`
behaviour, a slow detector one that becomes `some` only after the deadline. -/

/-- Outcome of one detection round trip. -/
inductive RTOutcome where
  | hit (d : DetectionData)
  | timeout
  | stale
  deriving DecidableEq, Repr

/-- Modelled from the spec: the bounded wait of the Detection Round-Trip
Protocol (not in the checked-in sources).  Polls the detection channel once
per millisecond for up to `rem` further milliseconds; returns the outcome and
the total blocked time.  A matching `frame_id` is a hit; at the deadline a
mismatched occupant is stale, an empty channel a timeout. -/
def rtWaitAux (fid : Nat) (chan : Nat → Option DetectionData) :
    Nat → Nat → RTOutcome × Nat
  | 0, elapsed =>
    match chan elapsed with
    | some d => if d.frame_id = fid then (.hit d, elapsed) else (.stale, elapsed)
    | none => (.timeout, elapsed)
  | rem + 1, elapsed =>
    match chan elapsed with
    | some d =>
        if d.frame_id = fid then (.hit d, elapsed)
        else rtWaitAux fid chan rem (elapsed + 1)
    | none => rtWaitAux fid chan rem (elapsed + 1)

/-- Modelled from the spec: wait up to `timeoutMs` for the detection channel's
`frame_id` to advance to `fid`; never blocks longer than `timeoutMs`. -/
def rtWait (timeoutMs fid : Nat) (chan : Nat → Option DetectionData) :
    RTOutcome × Nat :=
  rtWaitAux fid chan timeoutMs 0

/-! ## Throttle / control policy (spec section 4.3) -/

/-- Modelled from the spec: the Throttle/Control Policy (not in the checked-in
sources).  During warmup it emits `base_throttle` with neutral steering and
advances the warmup counter; on a hit it delegates to the external decision
function; on a miss it falls back to `base_throttle` with the last known safe
steering (neutral if none). -/
def throttlePolicy (base_throttle : ℚ) (decideFn : DetectionData → ℚ × ℚ × ℚ)
    (w : WarmupState) (lastSafe : Option ℚ) (outcome : RTOutcome) (fid : Nat) :
    ControlCommand × WarmupState :=
  if w.frames_elapsed < w.warmup_limit then
    ({ throttle := base_throttle, steer := 0, brake := 0,
       source_frame_id := fid, is_fallback := true },
     { w with frames_elapsed := w.frames_elapsed + 1 })
  else
    match outcome with
    | .hit d =>
        let r := decideFn d
        ({ throttle := r.2.1, steer := r.1, brake := r.2.2,
           source_frame_id := fid, is_fallback := false }, w)
    | _ =>
        ({ throttle := base_throttle, steer := lastSafe.getD 0, brake := 0,
           source_frame_id := fid, is_fallback := true }, w)

/-! ## Tick orchestrator (spec sections 2, 4.2-4.5) -/

/-- Everything one tick produces: the frame written to the frame channel, the
round-trip outcome, the single command applied (and mirrored to the control
channel), how long the round trip blocked, whether telemetry was published,
and the successor orchestrator state. -/
structure TickResult where
  frame : FrameData
  outcome : RTOutcome
  cmd : ControlCommand
  blockedMs : Nat
  published : Bool
  state : OrchestratorState
  deriving Repr

/-- Modelled from the spec: telemetry publication per tick.  The orchestrator
(not in the checked-in sources) publishes frame, detection and state telemetry
unconditionally; per the spec the source treats the `--broadcast` command-line
flag, parsed in `src/run.py`, as a legacy always-on flag. -/
def broadcastsTelemetry (_cfg : SimulationConfig) : Bool := true

/-- Modelled from the spec: one tick of the orchestration loop in Running
mode.  Writes a fresh frame (strictly larger `frame_id`), runs the bounded
detection wait, maps the outcome through the throttle policy, applies exactly
one command, publishes telemetry, and threads the state.  The last safe
steering value is refreshed only by a non-fallback command. -/
def tick (cfg : SimulationConfig) (decideFn : DetectionData → ℚ × ℚ × ℚ)
    (cap : FrameCapture) (chan : Nat → Option DetectionData)
    (st : OrchestratorState) : TickResult :=
  let fid := st.lastFrameId + 1
  let frame : FrameData :=
    { frame_id := fid, capture_timestamp := cap.capture_timestamp,
      width := cap.width, height := cap.height, payload := cap.payload }
  let wait := rtWait cfg.detector_timeout fid chan
  let pc := throttlePolicy cfg.base_throttle decideFn st.warmup
    st.lastSafeSteer wait.1 fid
  let lastSafe : Option ℚ :=
    if pc.1.is_fallback then st.lastSafeSteer else some pc.1.steer
  { frame := frame, outcome := wait.1, cmd := pc.1, blockedMs := wait.2,
    published := broadcastsTelemetry cfg,
    state := { mode := st.mode, warmup := pc.2, lastSafeSteer := lastSafe,
               lastFrameId := fid } }

/-- One tick input: the captured frame content and the detector's behaviour
during that tick's wait. -/
structure TickInput where
  cap : FrameCapture
  chan : Nat → Option DetectionData

/-- Modelled from the spec: a run of consecutive Running-mode ticks, returning
the final state and the per-tick results in order. -/
def runTicks (cfg : SimulationConfig) (decideFn : DetectionData → ℚ × ℚ × ℚ) :
    List TickInput → OrchestratorState → OrchestratorState × List TickResult
  | [], st => (st, [])
  | inp :: rest, st =>
    let r := tick cfg decideFn inp.cap inp.chan st
    let tl := runTicks cfg decideFn rest r.state
    (tl.1, r :: tl.2)

/-! ## Action event bus (spec section 4.4) -/

/-- Modelled from the spec: whether an action type is a valid transition in
the given mode (`pause` in Running; `resume` in Paused; `respawn` in Running
or Paused; `quit` anywhere). -/
def validEvent : ActionType → Mode → Bool
  | .pause, .running => true
  | .resume, .paused => true
  | .respawn, .running => true
  | .respawn, .paused => true
  | .quit, _ => true
  | _, _ => false

/-- Modelled from the spec: apply one polled ActionEvent to the orchestrator
state.  Valid transitions act as in section 4.4 (`respawn` additionally asks
the simulator to reposition the vehicle — an external effect not modelled);
events invalid in the current mode are ignored without error. -/
def applyEvent (st : OrchestratorState) (e : ActionType) : OrchestratorState :=
  match e, st.mode with
  | .pause, .running => { st with mode := .paused }
  | .resume, .paused => { st with mode := .running }
  | .respawn, .running =>
      { st with warmup := { st.warmup with frames_elapsed := 0 } }
  | .respawn, .paused =>
      { st with warmup := { st.warmup with frames_elapsed := 0 } }
  | .quit, _ => { st with mode := .terminating }
  | _, _ => st

/-- Modelled from the spec: apply a polled batch of ActionEvents in arrival
order. -/
def applyEvents (st : OrchestratorState) (es : List ActionType) :
    OrchestratorState :=
  es.foldl applyEvent st

/-! ## `src/run.py`: argument handling and main control flow -/

/-- Python truthiness of an optional string argument (`args.host`): `None` and
the empty string are falsy, any other string truthy.  Embeds the condition of
`args.host if args.host else system_config.carla.host` in `main`. -/
def pyTruthyStr : Option String → Bool
  | none => false
  | some s => decide (s ≠ "")

/-- Python truthiness of an optional integer argument (`args.port`): `None`
and `0` are falsy. -/
def pyTruthyInt : Option Int → Bool
  | none => false
  | some n => decide (n ≠ 0)

/-- `main` (run.py line 182): `carla_host = args.host if args.host else
system_config.carla.host`. -/
def resolveHost (argHost : Option String) (cfgHost : String) : String :=
  if pyTruthyStr argHost then argHost.getD cfgHost else cfgHost

/-- `main` (run.py line 183): `carla_port = args.port if args.port else
system_config.carla.port`. -/
def resolvePort (argPort : Option Int) (cfgPort : Int) : Int :=
  if pyTruthyInt argPort then argPort.getD cfgPort else cfgPort

/-- Startup conditions the spec's error taxonomy (section 7) lists as fatal:
shared-memory channel creation, simulator connection, single-writer
configuration. -/
structure SetupConditions where
  shmChannelsOk : Bool
  simConnected : Bool
  singleWriterOk : Bool
  deriving DecidableEq, Repr

/-- Modelled from the spec: `SimulationOrchestrator.setup` (not in the
checked-in sources) succeeds exactly when channel creation, the simulator
connection and the single-writer configuration all succeed. -/
def setupResult (c : SetupConditions) : Bool :=
  c.shmChannelsOk && c.simConnected && c.singleWriterOk

/-- Outcome of `main`: the returned exit code and whether the orchestrator's
run loop was entered. -/
structure MainOutcome where
  exitCode : Nat
  ranLoop : Bool
  deriving DecidableEq, Repr

/-- `main` (run.py lines 211-219): if `orchestrator.setup()` fails, print the
failure and return 1 without calling `orchestrator.run()`; otherwise run the
loop and return 0. -/
def mainFlow (setupOk : Bool) : MainOutcome :=
  if setupOk then { exitCode := 0, ranLoop := true }
  else { exitCode := 1, ranLoop := false }

/-- `parse_arguments` (run.py lines 102-107): `--broadcast` is a
`store_true` flag, so its parsed value is exactly its presence on the command
line; `main` (line 193) stores it in `SimulationConfig.enable_broadcast`. -/
def parseBroadcastFlag (present : Bool) : Bool := present

/-- `print_banner` (run.py lines 150-156): the banner line printed for ZMQ
broadcasting depends on `config.enable_broadcast`. -/
def bannerBroadcastLine (cfg : SimulationConfig) : String :=
  if cfg.enable_broadcast then "ZMQ Broadcasting: ENABLED"
  else "ZMQ Broadcasting: DISABLED (use --broadcast to enable)"

/-! ## Concrete sample values

Used to instantiate the theorems below on explicit inputs.  The timeout is
kept small (3 ms instead of the 1000 ms default from `parse_arguments`) so
the bounded wait evaluates quickly; nothing in the statements depends on its
magnitude. -/

/-- A concrete configuration: run.py defaults except for the shortened
timeout (base throttle 0.3, 50 warmup frames, synchronous mode on). -/
def demoCfg : SimulationConfig :=
  { carla_host := "localhost", carla_port := 2000, detector_timeout := 3,
    enable_broadcast := true, base_throttle := 3/10, warmup_frames := 50,
    enable_sync_mode := true }

/-- A concrete external decision function (constant steer/throttle/brake). -/
def demoDecide : DetectionData → ℚ × ℚ × ℚ := fun _ => (1/4, 1/2, 0)

/-- A concrete captured frame. -/
def demoCap : FrameCapture :=
  { capture_timestamp := 0, width := 800, height := 600, payload := 0 }

/-- A detector that never writes to the detection channel (stuck/crashed). -/
def chanNone : Nat → Option DetectionData := fun _ => none

/-- A concrete detection tagged with frame id 1. -/
def demoDet : DetectionData :=
  { frame_id := 1, produced_timestamp := 0, result := 0, valid := true }

/-- A detector that answers immediately with `demoDet`. -/
def chanHit : Nat → Option DetectionData := fun _ => some demoDet

/-- Orchestrator state at process start (fresh warmup, no frame written). -/
def demoState : OrchestratorState :=
  { mode := .running, warmup := { frames_elapsed := 0, warmup_limit := 50 },
    lastSafeSteer := none, lastFrameId := 0 }

/-- Orchestrator state after warmup has completed. -/
def postWarmState : OrchestratorState :=
  { mode := .running, warmup := { frames_elapsed := 50, warmup_limit := 50 },
    lastSafeSteer := none, lastFrameId := 0 }

/-- Warmup bookkeeping with the warmup already complete. -/
def postWarmup : WarmupState := { frames_elapsed := 50, warmup_limit := 50 }

/-! ## Helper lemmas -/

lemma rtWaitAux_elapsed_le (fid : Nat) (chan : Nat → Option DetectionData) :
    ∀ rem elapsed, (rtWaitAux fid chan rem elapsed).2 ≤ elapsed + rem := by
  intro rem
  induction rem with
  | zero =>
    intro elapsed
    unfold rtWaitAux
    cases chan elapsed with
    | none => simp
    | some d =>
      by_cases h : d.frame_id = fid <;> simp [h]
  | succ n ih =>
    intro elapsed
    unfold rtWaitAux
    cases chan elapsed with
    | none =>
      calc (rtWaitAux fid chan n (elapsed + 1)).2 ≤ elapsed + 1 + n := ih _
        _ = elapsed + (n + 1) := by omega
    | some d =>
      by_cases h : d.frame_id = fid
      · simp [h]
      · simp only [h, if_false]
        calc (rtWaitAux fid chan n (elapsed + 1)).2 ≤ elapsed + 1 + n := ih _
          _ = elapsed + (n + 1) := by omega

lemma rtWait_elapsed_le (timeoutMs fid : Nat)
    (chan : Nat → Option DetectionData) :
    (rtWait timeoutMs fid chan).2 ≤ timeoutMs := by
  have h := rtWaitAux_elapsed_le fid chan timeoutMs 0
  simpa [rtWait] using h

lemma rtWaitAux_hit_frame_id (fid : Nat) (chan : Nat → Option DetectionData)
    (d : DetectionData) :
    ∀ rem elapsed, (rtWaitAux fid chan rem elapsed).1 = .hit d →
      d.frame_id = fid := by
  intro rem
  induction rem with
  | zero =>
    intro elapsed h
    unfold rtWaitAux at h
    cases hc : chan elapsed with
    | none => simp [hc] at h
    | some d0 =>
      by_cases he : d0.frame_id = fid
      · simp [hc, he] at h
        exact h ▸ he
      · simp [hc, he] at h
  | succ n ih =>
    intro elapsed h
    unfold rtWaitAux at h
    cases hc : chan elapsed with
    | none =>
      simp only [hc] at h
      exact ih _ h
    | some d0 =>
      by_cases he : d0.frame_id = fid
      · simp [hc, he] at h
        exact h ▸ he
      · simp only [hc, he, if_false] at h
        exact ih _ h

lemma rtWait_hit_frame_id (timeoutMs fid : Nat)
    (chan : Nat → Option DetectionData) (d : DetectionData)
    (h : (rtWait timeoutMs fid chan).1 = .hit d) : d.frame_id = fid :=
  rtWaitAux_hit_frame_id fid chan d timeoutMs 0 h

lemma throttlePolicy_source_frame_id (base : ℚ)
    (decideFn : DetectionData → ℚ × ℚ × ℚ) (w : WarmupState)
    (lastSafe : Option ℚ) (outcome : RTOutcome) (fid : Nat) :
    (throttlePolicy base decideFn w lastSafe outcome fid).1.source_frame_id
      = fid := by
  unfold throttlePolicy
  by_cases h : w.frames_elapsed < w.warmup_limit
  · simp [h]
  · cases outcome <;> simp [h]

lemma throttlePolicy_warmup (base : ℚ)
    (decideFn : DetectionData → ℚ × ℚ × ℚ) (w : WarmupState)
    (lastSafe : Option ℚ) (outcome : RTOutcome) (fid : Nat)
    (h : w.frames_elapsed < w.warmup_limit) :
    throttlePolicy base decideFn w lastSafe outcome fid =
      ({ throttle := base, steer := 0, brake := 0, source_frame_id := fid,
         is_fallback := true },
       { w with frames_elapsed := w.frames_elapsed + 1 }) := by
  unfold throttlePolicy
  simp [h]

lemma throttlePolicy_miss_fallback (base : ℚ)
    (decideFn : DetectionData → ℚ × ℚ × ℚ) (w : WarmupState)
    (lastSafe : Option ℚ) (outcome : RTOutcome) (fid : Nat)
    (h : ∀ d, outcome ≠ .hit d) :
    (throttlePolicy base decideFn w lastSafe outcome fid).1.is_fallback
      = true := by
  unfold throttlePolicy
  by_cases hw : w.frames_elapsed < w.warmup_limit
  · simp [hw]
  · cases outcome with
    | hit d => exact absurd rfl (h d)
    | timeout => simp [hw]
    | stale => simp [hw]

lemma throttlePolicy_warmup_mono (base : ℚ)
    (decideFn : DetectionData → ℚ × ℚ × ℚ) (w : WarmupState)
    (lastSafe : Option ℚ) (outcome : RTOutcome) (fid : Nat) :
    w.frames_elapsed ≤
      (throttlePolicy base decideFn w lastSafe outcome fid).2.frames_elapsed
    ∧ (throttlePolicy base decideFn w lastSafe outcome fid).2.warmup_limit
      = w.warmup_limit := by
  unfold throttlePolicy
  by_cases hw : w.frames_elapsed < w.warmup_limit
  · simp [hw]
  · cases outcome <;> simp [hw]

lemma tick_frame_id (cfg : SimulationConfig)
    (decideFn : DetectionData → ℚ × ℚ × ℚ) (cap : FrameCapture)
    (chan : Nat → Option DetectionData) (st : OrchestratorState) :
    (tick cfg decideFn cap chan st).frame.frame_id = st.lastFrameId + 1 := by
  simp [tick]

lemma tick_state_lastFrameId (cfg : SimulationConfig)
    (decideFn : DetectionData → ℚ × ℚ × ℚ) (cap : FrameCapture)
    (chan : Nat → Option DetectionData) (st : OrchestratorState) :
    (tick cfg decideFn cap chan st).state.lastFrameId
      = st.lastFrameId + 1 := by
  simp [tick]

lemma tick_cmd_source (cfg : SimulationConfig)
    (decideFn : DetectionData → ℚ × ℚ × ℚ) (cap : FrameCapture)
    (chan : Nat → Option DetectionData) (st : OrchestratorState) :
    (tick cfg decideFn cap chan st).cmd.source_frame_id
      = st.lastFrameId + 1 := by
  simp [tick, throttlePolicy_source_frame_id]

lemma tick_hit_frame_id (cfg : SimulationConfig)
    (decideFn : DetectionData → ℚ × ℚ × ℚ) (cap : FrameCapture)
    (chan : Nat → Option DetectionData) (st : OrchestratorState)
    (d : DetectionData)
    (h : (tick cfg decideFn cap chan st).outcome = .hit d) :
    d.frame_id = st.lastFrameId + 1 := by
  simp only [tick] at h
  exact rtWait_hit_frame_id cfg.detector_timeout (st.lastFrameId + 1) chan d h

lemma tick_blocked_le (cfg : SimulationConfig)
    (decideFn : DetectionData → ℚ × ℚ × ℚ) (cap : FrameCapture)
    (chan : Nat → Option DetectionData) (st : OrchestratorState) :
    (tick cfg decideFn cap chan st).blockedMs ≤ cfg.detector_timeout := by
  simp only [tick]
  exact rtWait_elapsed_le cfg.detector_timeout (st.lastFrameId + 1) chan

lemma tick_warmup_limit (cfg : SimulationConfig)
    (decideFn : DetectionData → ℚ × ℚ × ℚ) (cap : FrameCapture)
    (chan : Nat → Option DetectionData) (st : OrchestratorState) :
    (tick cfg decideFn cap chan st).state.warmup.warmup_limit
      = st.warmup.warmup_limit := by
  simp only [tick]
  exact (throttlePolicy_warmup_mono _ _ _ _ _ _).2

lemma tick_warmup_mono (cfg : SimulationConfig)
    (decideFn : DetectionData → ℚ × ℚ × ℚ) (cap : FrameCapture)
    (chan : Nat → Option DetectionData) (st : OrchestratorState) :
    st.warmup.frames_elapsed ≤
      (tick cfg decideFn cap chan st).state.warmup.frames_elapsed := by
  simp only [tick]
  exact (throttlePolicy_warmup_mono _ _ _ _ _ _).1

lemma tick_warmup_step (cfg : SimulationConfig)
    (decideFn : DetectionData → ℚ × ℚ × ℚ) (cap : FrameCapture)
    (chan : Nat → Option DetectionData) (st : OrchestratorState)
    (h : st.warmup.frames_elapsed < st.warmup.warmup_limit) :
    (tick cfg decideFn cap chan st).cmd =
      { throttle := cfg.base_throttle, steer := 0, brake := 0,
        source_frame_id := st.lastFrameId + 1, is_fallback := true }
    ∧ (tick cfg decideFn cap chan st).state.warmup.frames_elapsed
        = st.warmup.frames_elapsed + 1 := by
  simp only [tick]
  rw [throttlePolicy_warmup _ _ _ _ _ _ h]
  exact ⟨rfl, rfl⟩

lemma runTicks_length (cfg : SimulationConfig)
    (decideFn : DetectionData → ℚ × ℚ × ℚ) :
    ∀ (l : List TickInput) (st : OrchestratorState),
      (runTicks cfg decideFn l st).2.length = l.length
  | [], _ => rfl
  | _ :: rest, st => by
    simp [runTicks, runTicks_length cfg decideFn rest]

lemma runTicks_map_frame_id (cfg : SimulationConfig)
    (decideFn : DetectionData → ℚ × ℚ × ℚ) :
    ∀ (l : List TickInput) (st : OrchestratorState),
      (runTicks cfg decideFn l st).2.map (fun r => r.frame.frame_id)
        = List.range' (st.lastFrameId + 1) l.length
  | [], _ => rfl
  | inp :: rest, st => by
    simp only [runTicks, List.map_cons, List.length_cons]
    rw [List.range'_succ]
    refine congrArg₂ _ (tick_frame_id _ _ _ _ _) ?_
    rw [runTicks_map_frame_id cfg decideFn rest, tick_state_lastFrameId]

lemma runTicks_cmd_source (cfg : SimulationConfig)
    (decideFn : DetectionData → ℚ × ℚ × ℚ) :
    ∀ (l : List TickInput) (st : OrchestratorState),
      ∀ r ∈ (runTicks cfg decideFn l st).2,
        r.cmd.source_frame_id = r.frame.frame_id
  | [], _ => by simp [runTicks]
  | inp :: rest, st => by
    intro r hr
    simp only [runTicks, List.mem_cons] at hr
    rcases hr with h | h
    · subst h
      rw [tick_cmd_source, tick_frame_id]
    · exact runTicks_cmd_source cfg decideFn rest _ r h

lemma runTicks_no_old_hit (cfg : SimulationConfig)
    (decideFn : DetectionData → ℚ × ℚ × ℚ) (d : DetectionData) :
    ∀ (l : List TickInput) (st : OrchestratorState),
      d.frame_id ≤ st.lastFrameId →
      ∀ r ∈ (runTicks cfg decideFn l st).2, r.outcome ≠ .hit d
  | [], _, _ => by simp [runTicks]
  | inp :: rest, st, hold => by
    intro r hr
    simp only [runTicks, List.mem_cons] at hr
    rcases hr with h | h
    · subst h
      intro hhit
      have := tick_hit_frame_id cfg decideFn inp.cap inp.chan st d hhit
      omega
    · refine runTicks_no_old_hit cfg decideFn d rest _ ?_ r h
      rw [tick_state_lastFrameId]
      omega

lemma runTicks_warmup_all (cfg : SimulationConfig)
    (decideFn : DetectionData → ℚ × ℚ × ℚ) :
    ∀ (l : List TickInput) (st : OrchestratorState),
      st.warmup.frames_elapsed + l.length ≤ st.warmup.warmup_limit →
      ∀ r ∈ (runTicks cfg decideFn l st).2,
        r.cmd.throttle = cfg.base_throttle ∧ r.cmd.steer = 0
          ∧ r.cmd.is_fallback = true
  | [], _, _ => by simp [runTicks]
  | inp :: rest, st, hlim => by
    intro r hr
    have hlt : st.warmup.frames_elapsed < st.warmup.warmup_limit := by
      simp only [List.length_cons] at hlim
      omega
    simp only [runTicks, List.mem_cons] at hr
    rcases hr with h | h
    · subst h
      rw [(tick_warmup_step cfg decideFn inp.cap inp.chan st hlt).1]
      exact ⟨rfl, rfl, rfl⟩
    · refine runTicks_warmup_all cfg decideFn rest _ ?_ r h
      rw [(tick_warmup_step cfg decideFn inp.cap inp.chan st hlt).2,
        tick_warmup_limit]
      simp only [List.length_cons] at hlim
      omega

lemma applyEvent_invalid (st : OrchestratorState) (e : ActionType)
    (h : validEvent e st.mode = false) : applyEvent st e = st := by
  obtain ⟨m, w, ls, fid⟩ := st
  cases e <;> cases m <;> simp_all [validEvent, applyEvent]

lemma applyEvent_warmup (st : OrchestratorState) (e : ActionType) :
    st.warmup.frames_elapsed ≤ (applyEvent st e).warmup.frames_elapsed
    ∨ (e = .respawn ∧ (applyEvent st e).warmup.frames_elapsed = 0) := by
  obtain ⟨m, w, ls, fid⟩ := st
  cases e <;> cases m <;> simp [applyEvent]

lemma applyEvent_respawn_resets (st : OrchestratorState)
    (h : st.mode = .running ∨ st.mode = .paused) :
    (applyEvent st .respawn).warmup.frames_elapsed = 0 := by
  obtain ⟨m, w, ls, fid⟩ := st
  simp only at h
  rcases h with h | h <;> subst h <;> simp [applyEvent]

/-! ## Claim theorems -/

/-- C1: for every tick and every detector behaviour (responsive, slow, stuck,
or crashed — any detection-channel history `chan`), the detection round-trip
wait blocks the tick for at most the configured `detector_timeout`
milliseconds; no outcome exceeds that deadline, and the bound holds already
for the bare bounded wait. -/
theorem detection_wait_never_exceeds_timeout :
    ∀ (cfg : SimulationConfig) (decideFn : DetectionData → ℚ × ℚ × ℚ)
      (cap : FrameCapture) (chan : Nat → Option DetectionData)
      (st : OrchestratorState),
      (tick cfg decideFn cap chan st).blockedMs ≤ cfg.detector_timeout
      ∧ ∀ (timeoutMs fid : Nat),
          (rtWait timeoutMs fid chan).2 ≤ timeoutMs := by
  intro cfg decideFn cap chan st
  exact ⟨tick_blocked_le cfg decideFn cap chan st,
    fun timeoutMs fid => rtWait_elapsed_le timeoutMs fid chan⟩

/-- C2: on every tick taken while `frames_elapsed < warmup_limit`, the emitted
command carries exactly `base_throttle` with neutral steering and the fallback
flag, whatever the detector does (`chan` universally quantified), and the
warmup counter advances by one. -/
theorem warmup_tick_emits_base_throttle :
    ∀ (cfg : SimulationConfig) (decideFn : DetectionData → ℚ × ℚ × ℚ)
      (cap : FrameCapture) (chan : Nat → Option DetectionData)
      (st : OrchestratorState),
      st.warmup.frames_elapsed < st.warmup.warmup_limit →
      (tick cfg decideFn cap chan st).cmd.throttle = cfg.base_throttle
      ∧ (tick cfg decideFn cap chan st).cmd.steer = 0
      ∧ (tick cfg decideFn cap chan st).cmd.is_fallback = true
      ∧ (tick cfg decideFn cap chan st).state.warmup.frames_elapsed
          = st.warmup.frames_elapsed + 1 := by
  intro cfg decideFn cap chan st h
  have hs := tick_warmup_step cfg decideFn cap chan st h
  rw [hs.1]
  exact ⟨rfl, rfl, rfl, hs.2⟩

/-- Witness for C2: the first tick from a fresh state (warmup 0 of 50) with a
withheld detector emits throttle 0.3, steer 0, fallback, and counter 1. -/
theorem warmup_tick_emits_base_throttle_witness :
    (tick demoCfg demoDecide demoCap chanNone demoState).cmd.throttle
        = demoCfg.base_throttle
    ∧ (tick demoCfg demoDecide demoCap chanNone demoState).cmd.steer = 0
    ∧ (tick demoCfg demoDecide demoCap chanNone demoState).cmd.is_fallback
        = true
    ∧ (tick demoCfg demoDecide demoCap chanNone demoState).state.warmup.frames_elapsed
        = demoState.warmup.frames_elapsed + 1 :=
  warmup_tick_emits_base_throttle demoCfg demoDecide demoCap chanNone demoState
    (by decide)

/-- C3: any hit necessarily carries the frame id written at the start of the
tick (a mismatched detection is never returned as data); a stale or timed-out
round trip yields a fallback command; and a detection tagged with any already
written frame id is never the hit of any later tick. -/
theorem stale_detection_discarded :
    ∀ (cfg : SimulationConfig) (decideFn : DetectionData → ℚ × ℚ × ℚ)
      (cap : FrameCapture) (chan : Nat → Option DetectionData)
      (st : OrchestratorState),
      (∀ d : DetectionData, (tick cfg decideFn cap chan st).outcome = .hit d →
        d.frame_id = (tick cfg decideFn cap chan st).frame.frame_id)
      ∧ ((tick cfg decideFn cap chan st).outcome = .stale
          ∨ (tick cfg decideFn cap chan st).outcome = .timeout →
        (tick cfg decideFn cap chan st).cmd.is_fallback = true)
      ∧ (∀ (l : List TickInput) (d : DetectionData),
          d.frame_id ≤ st.lastFrameId →
          ∀ r ∈ (runTicks cfg decideFn l st).2, r.outcome ≠ .hit d) := by
  intro cfg decideFn cap chan st
  refine ⟨?_, ?_, ?_⟩
  · intro d h
    rw [tick_frame_id]
    exact tick_hit_frame_id cfg decideFn cap chan st d h
  · intro h
    simp only [tick] at h ⊢
    apply throttlePolicy_miss_fallback
    intro d
    rcases h with h | h <;> rw [h] <;> simp
  · intro l d hle r hr
    exact runTicks_no_old_hit cfg decideFn d l st hle r hr

/-- Witness for C3: with an immediately responding detector the hit carries
the written frame id; with a withheld detector the tick after warmup emits a
fallback command. -/
theorem stale_detection_discarded_witness :
    demoDet.frame_id
        = (tick demoCfg demoDecide demoCap chanHit postWarmState).frame.frame_id
    ∧ (tick demoCfg demoDecide demoCap chanNone postWarmState).cmd.is_fallback
        = true :=
  ⟨(stale_detection_discarded demoCfg demoDecide demoCap chanHit
      postWarmState).1 demoDet (by decide),
   (stale_detection_discarded demoCfg demoDecide demoCap chanNone
      postWarmState).2.1 (Or.inr (by decide))⟩

/-- C4: over any run of ticks, the written frame ids are pairwise strictly
increasing and strictly above every id written before the run; each tick's
applied command carries that tick's written frame id as `source_frame_id`; and
the run applies exactly one command per tick. -/
theorem frame_ids_increase_one_command_per_tick :
    ∀ (cfg : SimulationConfig) (decideFn : DetectionData → ℚ × ℚ × ℚ)
      (l : List TickInput) (st : OrchestratorState),
      ((runTicks cfg decideFn l st).2.map
        (fun r => r.frame.frame_id)).Pairwise (· < ·)
      ∧ (∀ r ∈ (runTicks cfg decideFn l st).2,
          st.lastFrameId < r.frame.frame_id)
      ∧ (∀ r ∈ (runTicks cfg decideFn l st).2,
          r.cmd.source_frame_id = r.frame.frame_id)
      ∧ (runTicks cfg decideFn l st).2.length = l.length := by
  intro cfg decideFn l st
  refine ⟨?_, ?_, runTicks_cmd_source cfg decideFn l st,
    runTicks_length cfg decideFn l st⟩
  · rw [runTicks_map_frame_id]
    exact List.pairwise_lt_range' _ _
  · intro r hr
    have hm : r.frame.frame_id ∈ List.range' (st.lastFrameId + 1) l.length := by
      rw [← runTicks_map_frame_id cfg decideFn l st]
      exact List.mem_map_of_mem _ hr
    rcases List.mem_range'.1 hm with ⟨i, _, he⟩
    omega

/-- Witness for C4: the single tick of a one-tick run from the fresh state
writes a frame id strictly above the initial `lastFrameId = 0`. -/
theorem frame_ids_increase_one_command_per_tick_witness :
    demoState.lastFrameId <
      (tick demoCfg demoDecide demoCap chanNone demoState).frame.frame_id :=
  (frame_ids_increase_one_command_per_tick demoCfg demoDecide
      (⟨demoCap, chanNone⟩ :: []) demoState).2.1
    (tick demoCfg demoDecide demoCap chanNone demoState)
    (by simp [runTicks])

/-- C5: the warmup counter never decreases under event processing except for
a respawn, which zeroes it (and does so in Running or Paused); ticks never
decrease it; and from a freshly reset counter, every run of at most
`warmup_limit` ticks emits only base-throttle fallback commands. -/
theorem warmup_counter_monotone_except_respawn :
    (∀ (st : OrchestratorState) (e : ActionType),
      st.warmup.frames_elapsed ≤ (applyEvent st e).warmup.frames_elapsed
      ∨ (e = .respawn ∧ (applyEvent st e).warmup.frames_elapsed = 0))
    ∧ (∀ (cfg : SimulationConfig) (decideFn : DetectionData → ℚ × ℚ × ℚ)
        (cap : FrameCapture) (chan : Nat → Option DetectionData)
        (st : OrchestratorState),
        st.warmup.frames_elapsed ≤
          (tick cfg decideFn cap chan st).state.warmup.frames_elapsed)
    ∧ (∀ st : OrchestratorState, st.mode = .running ∨ st.mode = .paused →
        (applyEvent st .respawn).warmup.frames_elapsed = 0)
    ∧ (∀ (cfg : SimulationConfig) (decideFn : DetectionData → ℚ × ℚ × ℚ)
        (l : List TickInput) (st : OrchestratorState),
        st.warmup.frames_elapsed = 0 →
        l.length ≤ st.warmup.warmup_limit →
        ∀ r ∈ (runTicks cfg decideFn l st).2,
          r.cmd.throttle = cfg.base_throttle ∧ r.cmd.is_fallback = true) := by
  refine ⟨applyEvent_warmup, tick_warmup_mono, applyEvent_respawn_resets, ?_⟩
  intro cfg decideFn l st h0 hlen r hr
  have h := runTicks_warmup_all cfg decideFn l st (by omega) r hr
  exact ⟨h.1, h.2.2⟩

/-- Witness for C5: a respawn in the post-warmup Running state zeroes the
counter, and the first tick from a zeroed counter is a base-throttle
fallback. -/
theorem warmup_counter_monotone_except_respawn_witness :
    (applyEvent postWarmState .respawn).warmup.frames_elapsed = 0
    ∧ (tick demoCfg demoDecide demoCap chanNone demoState).cmd.throttle
        = demoCfg.base_throttle
    ∧ (tick demoCfg demoDecide demoCap chanNone demoState).cmd.is_fallback
        = true :=
  ⟨warmup_counter_monotone_except_respawn.2.2.1 postWarmState
      (Or.inl (by decide)),
   warmup_counter_monotone_except_respawn.2.2.2 demoCfg demoDecide
      (⟨demoCap, chanNone⟩ :: []) demoState (by decide) (by decide)
      (tick demoCfg demoDecide demoCap chanNone demoState)
      (by simp [runTicks])⟩

/-- C6: an ActionEvent whose type is invalid in the current mode leaves the
orchestrator state exactly unchanged (ignored, not an error — `applyEvent` is
total), and a polled batch is applied strictly in arrival order (head first,
and concatenated batches left to right). -/
theorem invalid_events_ignored_and_order_kept :
    (∀ (st : OrchestratorState) (e : ActionType),
        validEvent e st.mode = false → applyEvent st e = st)
    ∧ (∀ (st : OrchestratorState) (e : ActionType) (es : List ActionType),
        applyEvents st (e :: es) = applyEvents (applyEvent st e) es)
    ∧ (∀ (st : OrchestratorState) (es₁ es₂ : List ActionType),
        applyEvents st (es₁ ++ es₂)
          = applyEvents (applyEvents st es₁) es₂) := by
  refine ⟨applyEvent_invalid, fun st e es => rfl, ?_⟩
  intro st es₁ es₂
  simp [applyEvents]

/-- Witness for C6: a `resume` received while already Running is ignored. -/
theorem invalid_events_ignored_and_order_kept_witness :
    applyEvent demoState .resume = demoState :=
  invalid_events_ignored_and_order_kept.1 demoState .resume (by decide)

/-- C7 counterexample: two invocations of the throttle policy with identical
WarmupState (warmup complete), identical outcome (timeout) and identically
absent DetectionData, but different last-known-safe-steering values, emit
different ControlCommands — the listed inputs do not determine the output. -/
theorem policy_not_determined_by_listed_inputs :
    throttlePolicy (3/10) demoDecide postWarmup (some (1/2))
        RTOutcome.timeout 7
      ≠ throttlePolicy (3/10) demoDecide postWarmup none
        RTOutcome.timeout 7 := by
  intro h
  have hs := congrArg (fun p => p.1.steer) h
  simp [throttlePolicy, postWarmup] at hs

/-- C7 (amended): the throttle policy is a pure deterministic mapping once
all of its actual inputs are fixed — the tunable base throttle, the external
decision function, the WarmupState, the last known safe steering value, the
round-trip outcome (carrying the DetectionData or its absence) and the
current frame id. -/
theorem policy_deterministic_on_all_inputs :
    ∀ (base₁ base₂ : ℚ) (dec₁ dec₂ : DetectionData → ℚ × ℚ × ℚ)
      (w₁ w₂ : WarmupState) (ls₁ ls₂ : Option ℚ) (o₁ o₂ : RTOutcome)
      (fid₁ fid₂ : Nat),
      base₁ = base₂ → dec₁ = dec₂ → w₁ = w₂ → ls₁ = ls₂ → o₁ = o₂ →
      fid₁ = fid₂ →
      throttlePolicy base₁ dec₁ w₁ ls₁ o₁ fid₁
        = throttlePolicy base₂ dec₂ w₂ ls₂ o₂ fid₂ := by
  intro base₁ base₂ dec₁ dec₂ w₁ w₂ ls₁ ls₂ o₁ o₂ fid₁ fid₂ h1 h2 h3 h4 h5 h6
  rw [h1, h2, h3, h4, h5, h6]

/-- Witness for C7 (amended): two textually separate invocations on the same
concrete inputs agree. -/
theorem policy_deterministic_on_all_inputs_witness :
    throttlePolicy (3/10) demoDecide postWarmup none RTOutcome.timeout 7
      = throttlePolicy (3/10) demoDecide postWarmup none RTOutcome.timeout 7 :=
  policy_deterministic_on_all_inputs (3/10) (3/10) demoDecide demoDecide
    postWarmup postWarmup none none RTOutcome.timeout RTOutcome.timeout 7 7
    rfl rfl rfl rfl rfl rfl

/-- C8: telemetry is published on every tick whatever the parsed
`--broadcast` value is — flipping `enable_broadcast` in the configuration
never changes the per-tick publication — while the argument parser itself
records exactly the flag's presence (`store_true`). -/
theorem broadcast_flag_does_not_affect_publishing :
    ∀ (cfg : SimulationConfig) (decideFn : DetectionData → ℚ × ℚ × ℚ)
      (cap : FrameCapture) (chan : Nat → Option DetectionData)
      (st : OrchestratorState) (b₁ b₂ : Bool),
      (tick { cfg with enable_broadcast := b₁ } decideFn cap chan st).published
        = true
      ∧ (tick { cfg with enable_broadcast := b₁ } decideFn cap chan st).published
          = (tick { cfg with enable_broadcast := b₂ } decideFn cap chan st).published
      ∧ parseBroadcastFlag b₁ = b₁ := by
  intro cfg decideFn cap chan st b₁ b₂
  exact ⟨rfl, rfl, rfl⟩

/-- C9: `main` aborts with exit code 1 before entering the run loop whenever
subsystem setup fails (channel creation, simulator connection, or writer
configuration), and otherwise runs the loop and returns 0. -/
theorem setup_failure_exits_before_loop :
    ∀ c : SetupConditions,
      (setupResult c = false →
        mainFlow (setupResult c) = { exitCode := 1, ranLoop := false })
      ∧ (setupResult c = true →
        mainFlow (setupResult c) = { exitCode := 0, ranLoop := true })
      ∧ (c.shmChannelsOk = false ∨ c.simConnected = false
          ∨ c.singleWriterOk = false →
        mainFlow (setupResult c) = { exitCode := 1, ranLoop := false }) := by
  intro c
  refine ⟨?_, ?_, ?_⟩
  · intro h
    simp [mainFlow, h]
  · intro h
    simp [mainFlow, h]
  · intro h
    have hf : setupResult c = false := by
      rcases h with h | h | h <;> simp [setupResult, h]
    simp [mainFlow, hf]

/-- Witness for C9: a failed simulator connection yields exit code 1 with the
loop never entered. -/
theorem setup_failure_exits_before_loop_witness :
    mainFlow (setupResult
        { shmChannelsOk := true, simConnected := false, singleWriterOk := true })
      = { exitCode := 1, ranLoop := false } :=
  (setup_failure_exits_before_loop
      { shmChannelsOk := true, simConnected := false, singleWriterOk := true }).2.2
    (Or.inr (Or.inl rfl))

/-- C10: `main` uses the command-line host/port only when Python-truthy: an
explicit `--port 0` or `--host ""` (and an absent argument alike) is silently
replaced by the configured value, while any truthy value is used as given. -/
theorem host_port_resolution_uses_truthiness :
    ∀ (cfgHost : String) (cfgPort : Int),
      resolveHost (some "") cfgHost = cfgHost
      ∧ resolvePort (some 0) cfgPort = cfgPort
      ∧ resolveHost none cfgHost = cfgHost
      ∧ resolvePort none cfgPort = cfgPort
      ∧ (∀ hs : String, hs ≠ "" → resolveHost (some hs) cfgHost = hs)
      ∧ (∀ p : Int, p ≠ 0 → resolvePort (some p) cfgPort = p) := by
  intro cfgHost cfgPort
  refine ⟨?_, ?_, ?_, ?_, ?_, ?_⟩
  · simp [resolveHost, pyTruthyStr]
  · simp [resolvePort, pyTruthyInt]
  · simp [resolveHost, pyTruthyStr]
  · simp [resolvePort, pyTruthyInt]
  · intro hs hne
    simp [resolveHost, pyTruthyStr, hne]
  · intro p hne
    simp [resolvePort, pyTruthyInt, hne]

/-- Witness for C10: with configured host 10.0.0.5 and port 2000, the falsy
arguments `--host ""` and `--port 0` are replaced by the configured values,
while truthy arguments are used as given. -/
theorem host_port_resolution_uses_truthiness_witness :
    resolveHost (some "") "10.0.0.5" = "10.0.0.5"
    ∧ resolvePort (some 0) 2000 = 2000
    ∧ resolveHost (some "carla.local") "10.0.0.5" = "carla.local"
    ∧ resolvePort (some 2022) 2000 = 2022 :=
  ⟨(host_port_resolution_uses_truthiness "10.0.0.5" 2000).1,
   (host_port_resolution_uses_truthiness "10.0.0.5" 2000).2.1,
   (host_port_resolution_uses_truthiness "10.0.0.5" 2000).2.2.2.2.1
      "carla.local" (by decide),
   (host_port_resolution_uses_truthiness "10.0.0.5" 2000).2.2.2.2.2
      2022 (by decide)⟩
